import Mathlib

/-!
Verification of the sovy-merchant order-management front end.

The definitions below are a shallow embedding of the TypeScript source:

* data model            — src/src/services/api.ts (interfaces FoodItem, OrderItem,
                          Order, the orders endpoint response shape)
* query cache           — the @tanstack/react-query cache as used by OrdersPage,
                          restricted to the order-list query family keyed by
                          the pair (currentPage, selectedStatus)
* order mutations       — src/src/pages/OrdersPage.tsx: updateOrderStatus
                          (onMutate / onError / onSettled) and updatePaymentStatus
                          (onSuccess only)
* response interceptor  — src/src/services/api.ts, the axios response interceptor
* live-update channel   — src/src/pages/OrdersPage.tsx, connectWebSocket and its
                          onclose handler plus the effect cleanup
* phone validation      — src/src/pages/ProfilePage.tsx, the zod profileSchema
                          phone regex

JavaScript numbers carry no arithmetic in any property below, so they are
modelled as Int.  Execution is single threaded and event driven; each handler
is modelled as a pure function on an explicit state record, and timers are
modelled as scheduled (delay, action) entries that a separate function fires.
-/

namespace SovyMerchant

/-- Order status enum, from the Order interface in src/services/api.ts. -/
inductive OrderStatus
  | PENDING
  | CONFIRMED
  | PICKED_UP
  | CANCELLED
deriving DecidableEq

/-- Payment status enum, from the Order interface in src/services/api.ts. -/
inductive PaymentStatus
  | PENDING
  | PAID
deriving DecidableEq

/-- FoodItem interface, src/services/api.ts. -/
structure FoodItem where
  id : String
  name : String
  description : String
  originalPrice : Int
  price : Int
  quantity : Int
  expiryDate : String
  imageUrl : Option String
  merchantId : String
  createdAt : String
  updatedAt : String
deriving DecidableEq

/-- OrderItem interface, src/services/api.ts. -/
structure OrderItem where
  id : String
  quantity : Int
  price : Int
  foodItem : FoodItem
deriving DecidableEq

/-- Order interface, src/services/api.ts. -/
structure Order where
  id : String
  status : OrderStatus
  paymentStatus : PaymentStatus
  pickupTime : String
  items : List OrderItem
  createdAt : String
  updatedAt : String
deriving DecidableEq

/-- Response shape of GET /api/orders/merchant: orders plus total count
(api.getOrders in src/services/api.ts). -/
structure OrdersResponse where
  orders : List Order
  total : Int
deriving DecidableEq

/-- Concrete part of the react-query key for the order-list query family:
the full key is the array of literal merchant-orders plus currentPage plus
selectedStatus (OrdersPage.tsx line 53 and line 122). -/
structure OrdersKey where
  page : Nat
  filter : String
deriving DecidableEq

/-- The react-query cache restricted to the order-list family, as an
association list from key to cached value. -/
def OrdersCache : Type := List (OrdersKey × OrdersResponse)

instance : DecidableEq OrdersCache := by
  unfold OrdersCache
  infer_instance

/-- queryClient.getQueryData at a concrete key. -/
def cacheLookup (k : OrdersKey) : OrdersCache → Option OrdersResponse
  | [] => none
  | e :: rest => if e.1 = k then some e.2 else cacheLookup k rest

/-- queryClient.setQueryData with a direct value: insert or replace at the key. -/
def cacheSet (k : OrdersKey) (v : OrdersResponse) : OrdersCache → OrdersCache
  | [] => [(k, v)]
  | e :: rest => if e.1 = k then (k, v) :: rest else e :: cacheSet k v rest

/-- queryClient.setQueryData with an updater function: the updater is applied
to the current value (undefined when absent); when the updater returns
undefined the cache is not touched, otherwise the result is stored at the
key.  This is react-query's documented setQueryData updater contract. -/
def cacheFnUpdate (k : OrdersKey) (f : Option OrdersResponse → Option OrdersResponse)
    (c : OrdersCache) : OrdersCache :=
  match f (cacheLookup k c) with
  | none => c
  | some v => cacheSet k v c

/-- The updater passed to setQueryData in updateOrderStatus.onMutate
(OrdersPage.tsx lines 62-73): when no value is cached it returns the old
(undefined) value; otherwise it maps over the cached orders, replacing the
status field of every order whose id equals the mutated orderId and keeping
every other order as is; the total field is spread through unchanged. -/
def ordersUpdater (orderId : String) (st : OrderStatus) :
    Option OrdersResponse → Option OrdersResponse
  | none => none
  | some old =>
      some { old with
             orders := old.orders.map fun o =>
               if o.id = orderId then { o with status := st } else o }

/-- State of the orders page relevant to the mutation flow.
cache models the react-query order-list cache; page and filter are the
currentPage and selectedStatus component state; pickupOrder is the transient
removal marker (useState at OrdersPage.tsx line 35); pickupTimers records the
delays of setTimeout callbacks scheduled to clear the marker (line 57-59);
cancelled records that cancelQueries ran for the order-list family (line 52);
invalidations counts invalidateQueries calls on the order-list family. -/
structure PageState where
  cache : OrdersCache
  page : Nat
  filter : String
  pickupOrder : Option String
  pickupTimers : List Nat
  cancelled : Bool
  invalidations : Nat
deriving DecidableEq

/-- Context object returned by updateOrderStatus.onMutate and handed to
onError (OrdersPage.tsx line 75 and 77). -/
structure MutationCtx where
  previousOrders : Option OrdersResponse
deriving DecidableEq

/-- OrdersPage.tsx lines 55-60: when the target status is PICKED_UP, set the
pickupOrder marker to the mutated order id and schedule a 2000 ms timeout
that clears it; otherwise do nothing. -/
def statusMarkerStep (orderId : String) (st : OrderStatus) (s : PageState) : PageState :=
  if st = OrderStatus.PICKED_UP then
    { s with pickupOrder := some orderId, pickupTimers := s.pickupTimers ++ [2000] }
  else s

/-- updateOrderStatus.onMutate (OrdersPage.tsx lines 51-76), in source order:
await cancelQueries on the order-list family; snapshot getQueryData at the
active (page, filter) key; conditionally set the pickup marker and its 2 s
timeout; apply the optimistic updater through setQueryData; return the
snapshot as the mutation context. -/
def statusOnMutate (orderId : String) (st : OrderStatus) (s : PageState) :
    PageState × MutationCtx :=
  let s1 := { s with cancelled := true }
  let previousOrders := cacheLookup ⟨s1.page, s1.filter⟩ s1.cache
  let s2 := statusMarkerStep orderId st s1
  let s3 := { s2 with
              cache := cacheFnUpdate ⟨s2.page, s2.filter⟩ (ordersUpdater orderId st) s2.cache }
  (s3, ⟨previousOrders⟩)

/-- updateOrderStatus.onError (OrdersPage.tsx lines 77-82): when the context
carries a (truthy, i.e. present) snapshot, write it back at the active
(page, filter) key; then clear the pickup marker unconditionally. -/
def statusOnError (ctx : MutationCtx) (s : PageState) : PageState :=
  let s1 :=
    match ctx.previousOrders with
    | some prev => { s with cache := cacheSet ⟨s.page, s.filter⟩ prev s.cache }
    | none => s
  { s1 with pickupOrder := none }

/-- updateOrderStatus.onSettled (OrdersPage.tsx lines 83-85): invalidate the
order-list family. -/
def statusOnSettled (s : PageState) : PageState :=
  { s with invalidations := s.invalidations + 1 }

/-- The setTimeout callback scheduled in onMutate (OrdersPage.tsx lines
57-59): setPickupOrder(null). -/
def firePickupTimeout (s : PageState) : PageState :=
  { s with pickupOrder := none }

/-- Full lifecycle of one updateOrderStatus mutation: onMutate, then on
failure onError with the returned context, then onSettled in either case
(react-query runs onError before onSettled). -/
def runStatusMutation (orderId : String) (st : OrderStatus) (success : Bool)
    (s : PageState) : PageState :=
  let p := statusOnMutate orderId st s
  statusOnSettled (if success then p.1 else statusOnError p.2 p.1)

/-- updatePaymentStatus (OrdersPage.tsx lines 40-46) declares no onMutate
handler, so the start of a payment mutation — everything that happens before
the network request resolves — changes no client state. -/
def paymentMutateStart (_orderId : String) (s : PageState) : PageState := s

/-- updatePaymentStatus.onSuccess (OrdersPage.tsx lines 43-45): invalidate
the order-list family.  It is the mutation's only handler. -/
def paymentOnSuccess (s : PageState) : PageState :=
  { s with invalidations := s.invalidations + 1 }

/-- Full lifecycle of one updatePaymentStatus mutation: no onMutate, and the
only registered handler is onSuccess; a failed mutation runs no handler at
all. -/
def runPaymentMutation (_orderId : String) (success : Bool) (s : PageState) : PageState :=
  if success then paymentOnSuccess s else s

/-! ### API client response interceptor (src/services/api.ts lines 26-35) -/

/-- The axios error object as the interceptor inspects it: responseStatus is
error.response?.status, which is absent for transport-level failures with no
HTTP response. -/
structure AxiosError where
  responseStatus : Option Nat
deriving DecidableEq

/-- Browser-visible client state touched by the interceptor: localStorage as
an association list, and window.location.href. -/
structure ClientState where
  storage : List (String × String)
  location : String
deriving DecidableEq

/-- localStorage.getItem. -/
def storageGetItem (k : String) : List (String × String) → Option String
  | [] => none
  | e :: rest => if e.1 = k then some e.2 else storageGetItem k rest

/-- localStorage.removeItem: drop every entry stored under the key. -/
def storageRemoveItem (k : String) : List (String × String) → List (String × String)
  | [] => []
  | e :: rest =>
      if e.1 = k then storageRemoveItem k rest else e :: storageRemoveItem k rest

/-- The rejection branch of the axios response interceptor (src/services/api.ts
lines 28-34): when the error carries a 401 response status, remove the auth
entry from localStorage and set location to /login; in every case return
Promise.reject with the original error. -/
def responseOnError (e : AxiosError) (s : ClientState) :
    ClientState × Except AxiosError Unit :=
  (if e.responseStatus = some 401 then
     { storage := storageRemoveItem "auth" s.storage, location := "/login" }
   else s,
   Except.error e)

/-! ### Live-update channel (OrdersPage.tsx lines 88-119) -/

/-- State of the WebSocket effect: the auth token from useAuth, whether the
current socket is open, how many sockets have been opened since mount, and
the delays of the reconnect timeouts scheduled so far (each entry is one
pending setTimeout(connectWebSocket, delay)). -/
structure WsState where
  token : Option String
  socketOpen : Bool
  socketsOpened : Nat
  reconnectDelays : List Nat
deriving DecidableEq

/-- connectWebSocket (OrdersPage.tsx lines 91-110): return immediately when
no token is present, otherwise open a new WebSocket (installing the
onmessage/onerror/onclose handlers). -/
def connectWebSocket (s : WsState) : WsState :=
  match s.token with
  | none => s
  | some _ => { s with socketOpen := true, socketsOpened := s.socketsOpened + 1 }

/-- ws.onclose (OrdersPage.tsx lines 107-109): schedule exactly one
setTimeout(connectWebSocket, 5000), unconditionally. -/
def wsOnClose (s : WsState) : WsState :=
  { s with reconnectDelays := s.reconnectDelays ++ [5000] }

/-- The effect cleanup (OrdersPage.tsx lines 114-118): it only calls
ws.close() on the current socket; it does not detach or guard the onclose
handler, so the close event the browser fires for this close still runs
wsOnClose. -/
def teardownCleanup (s : WsState) : WsState :=
  if s.socketOpen then { s with socketOpen := false } else s

/-- Iterated close events: the state after n successive close events have
each run the onclose handler. -/
def closesIter : Nat → WsState → WsState
  | 0, s => s
  | n + 1, s => closesIter n (wsOnClose s)

/-! ### Profile phone validation (src/pages/ProfilePage.tsx lines 8-17) -/

/-- Decision procedure for the zod phone pattern of profileSchema: an
optional leading plus sign, one digit 1-9, then 7 to 14 further digits,
anchored at both ends. -/
def phoneRegexAccepts (phone : String) : Bool :=
  match phone.toList with
  | [] => false
  | c :: cs =>
    let digitsPart := if c = '+' then cs else c :: cs
    match digitsPart with
    | [] => false
    | d :: ds =>
        (d.isDigit && d != '0') && ds.all Char.isDigit
          && decide (7 ≤ ds.length) && decide (ds.length ≤ 14)

/-! ### Concrete example states -/

/-- A concrete food item (field values arbitrary). -/
def exFood : FoodItem :=
  ⟨"f1", "Bread", "day-old loaf", 10, 5, 3, "2026-01-01", none, "m1", "t0", "t0"⟩

/-- A concrete order line item. -/
def exItem : OrderItem := ⟨"i1", 2, 5, exFood⟩

/-- The order of the spec's concrete scenario: id abc123, status PENDING,
payment still PENDING. -/
def exOrder : Order :=
  ⟨"abc123", OrderStatus.PENDING, PaymentStatus.PENDING, "t1", [exItem], "t0", "t0"⟩

/-- A cached order-list value holding just exOrder. -/
def exResp : OrdersResponse := ⟨[exOrder], 1⟩

/-- The active cache key: page 1, no status filter. -/
def exKey : OrdersKey := ⟨1, ""⟩

/-- A page state whose cache is seeded with exResp at exKey. -/
def exState : PageState :=
  { cache := [(exKey, exResp)]
    page := 1
    filter := ""
    pickupOrder := none
    pickupTimers := []
    cancelled := false
    invalidations := 0 }

/-- A mounted orders view: token present, one open socket, no pending
reconnect timers. -/
def exWsState : WsState :=
  { token := some "tok", socketOpen := true, socketsOpened := 1, reconnectDelays := [] }

/-! ### Helper lemmas -/

/-- Looking up a key right after setQueryData stored a value there returns
that value. -/
theorem cacheLookup_cacheSet_self (k : OrdersKey) (v : OrdersResponse) (c : OrdersCache) :
    cacheLookup k (cacheSet k v c) = some v := by
  induction c with
  | nil => simp [cacheSet, cacheLookup]
  | cons e rest ih =>
      by_cases h : e.1 = k
      · simp [cacheSet, h, cacheLookup]
      · simp [cacheSet, h, cacheLookup, ih]

/-- After localStorage.removeItem the key reads back as absent. -/
theorem storageGetItem_storageRemoveItem_self (k : String) (l : List (String × String)) :
    storageGetItem k (storageRemoveItem k l) = none := by
  induction l with
  | nil => simp [storageRemoveItem, storageGetItem]
  | cons e rest ih =>
      by_cases h : e.1 = k
      · simp [storageRemoveItem, h, ih]
      · simp [storageRemoveItem, h, storageGetItem, ih]

/-- The conditional pickup-marker step never touches the component's page. -/
theorem statusMarkerStep_page (orderId : String) (st : OrderStatus) (s : PageState) :
    (statusMarkerStep orderId st s).page = s.page := by
  unfold statusMarkerStep
  split <;> rfl

/-- The conditional pickup-marker step never touches the status filter. -/
theorem statusMarkerStep_filter (orderId : String) (st : OrderStatus) (s : PageState) :
    (statusMarkerStep orderId st s).filter = s.filter := by
  unfold statusMarkerStep
  split <;> rfl

/-- The conditional pickup-marker step never touches the cache. -/
theorem statusMarkerStep_cache (orderId : String) (st : OrderStatus) (s : PageState) :
    (statusMarkerStep orderId st s).cache = s.cache := by
  unfold statusMarkerStep
  split <;> rfl

/-! ### Claim theorems -/

/-- Claim C3: invoking the order-status mutation with orderId abc123 and
status CONFIRMED against a cache seeded with an order of id abc123 and status
PENDING leaves, at the end of the onMutate step (hence synchronously, before
the network request resolves), a cached entry in which that order's status is
CONFIRMED. -/
theorem status_mutation_optimistic_concrete :
    cacheLookup exKey ((statusOnMutate "abc123" OrderStatus.CONFIRMED exState).1.cache)
      = some ⟨[{ exOrder with status := OrderStatus.CONFIRMED }], 1⟩ := by
  decide

/-- Claim C2: for every order-status mutation that fails, if a cached
order-list value existed for the active (page, filter) key when the mutation
started, then after the onError handler runs the cached value at that key is
exactly the pre-mutation snapshot. -/
theorem status_mutation_rollback_on_error (orderId : String) (st : OrderStatus)
    (s : PageState) (prev : OrdersResponse)
    (h : cacheLookup ⟨s.page, s.filter⟩ s.cache = some prev) :
    cacheLookup ⟨s.page, s.filter⟩
      ((statusOnError (statusOnMutate orderId st s).2 (statusOnMutate orderId st s).1).cache)
      = some prev := by
  unfold statusOnMutate statusOnError
  simp only [h, statusMarkerStep_page, statusMarkerStep_filter]
  exact cacheLookup_cacheSet_self _ _ _

/-- Witness for claim C2 at a concrete input: the seeded cache satisfies the
hypothesis and the rollback equation holds there. -/
theorem status_mutation_rollback_on_error_witness :
    cacheLookup ⟨exState.page, exState.filter⟩ exState.cache = some exResp ∧
    cacheLookup ⟨exState.page, exState.filter⟩
      ((statusOnError (statusOnMutate "abc123" OrderStatus.CONFIRMED exState).2
          (statusOnMutate "abc123" OrderStatus.CONFIRMED exState).1).cache)
      = some exResp :=
  ⟨by decide,
   status_mutation_rollback_on_error "abc123" OrderStatus.CONFIRMED exState exResp (by decide)⟩

/-- Claim C10: if no cached order-list value existed at the active key when
the mutation started (the snapshot is absent), the onError handler performs
no cache write at all — the cache is left exactly as onMutate left it — while
the transient pickup marker is still cleared. -/
theorem status_onerror_without_snapshot (orderId : String) (st : OrderStatus)
    (s : PageState)
    (h : cacheLookup ⟨s.page, s.filter⟩ s.cache = none) :
    ((statusOnError (statusOnMutate orderId st s).2 (statusOnMutate orderId st s).1).cache
      = (statusOnMutate orderId st s).1.cache) ∧
    ((statusOnError (statusOnMutate orderId st s).2 (statusOnMutate orderId st s).1).pickupOrder
      = none) := by
  unfold statusOnMutate statusOnError
  simp only [h]
  exact ⟨trivial, trivial⟩

/-- A page state with an empty order-list cache. -/
def exEmptyState : PageState :=
  { cache := []
    page := 1
    filter := ""
    pickupOrder := none
    pickupTimers := []
    cancelled := false
    invalidations := 0 }

/-- Witness for claim C10 at a concrete input: the empty cache satisfies the
hypothesis and both conclusions hold there. -/
theorem status_onerror_without_snapshot_witness :
    cacheLookup ⟨exEmptyState.page, exEmptyState.filter⟩ exEmptyState.cache = none ∧
    (((statusOnError (statusOnMutate "abc123" OrderStatus.CONFIRMED exEmptyState).2
          (statusOnMutate "abc123" OrderStatus.CONFIRMED exEmptyState).1).cache
        = (statusOnMutate "abc123" OrderStatus.CONFIRMED exEmptyState).1.cache) ∧
      ((statusOnError (statusOnMutate "abc123" OrderStatus.CONFIRMED exEmptyState).2
          (statusOnMutate "abc123" OrderStatus.CONFIRMED exEmptyState).1).pickupOrder
        = none)) :=
  ⟨by decide,
   status_onerror_without_snapshot "abc123" OrderStatus.CONFIRMED exEmptyState (by decide)⟩

/-- Claim C4: for an order-status mutation targeting PICKED_UP, onMutate sets
the transient removal marker to the mutated order id and schedules exactly
one clearing timeout with a delay of exactly 2000 ms; on the success path the
settlement handler leaves the marker set (so it is the 2000 ms timeout that
clears it), and firing that timeout clears it; on the failure path the
onError handler clears the marker immediately, without the timer. -/
theorem pickup_marker_lifecycle (orderId : String) (st : OrderStatus) (s : PageState)
    (h : st = OrderStatus.PICKED_UP) :
    ((statusOnMutate orderId st s).1.pickupOrder = some orderId) ∧
    ((statusOnMutate orderId st s).1.pickupTimers = s.pickupTimers ++ [2000]) ∧
    ((statusOnSettled (statusOnMutate orderId st s).1).pickupOrder = some orderId) ∧
    ((firePickupTimeout (statusOnSettled (statusOnMutate orderId st s).1)).pickupOrder
      = none) ∧
    ((statusOnError (statusOnMutate orderId st s).2 (statusOnMutate orderId st s).1).pickupOrder
      = none) := by
  subst h
  exact ⟨rfl, rfl, rfl, rfl, rfl⟩

/-- Witness for claim C4 at a concrete input. -/
theorem pickup_marker_lifecycle_witness :
    OrderStatus.PICKED_UP = OrderStatus.PICKED_UP ∧
    (((statusOnMutate "abc123" OrderStatus.PICKED_UP exState).1.pickupOrder = some "abc123") ∧
     ((statusOnMutate "abc123" OrderStatus.PICKED_UP exState).1.pickupTimers
        = exState.pickupTimers ++ [2000]) ∧
     ((statusOnSettled (statusOnMutate "abc123" OrderStatus.PICKED_UP exState).1).pickupOrder
        = some "abc123") ∧
     ((firePickupTimeout
          (statusOnSettled (statusOnMutate "abc123" OrderStatus.PICKED_UP exState).1)).pickupOrder
        = none) ∧
     ((statusOnError (statusOnMutate "abc123" OrderStatus.PICKED_UP exState).2
          (statusOnMutate "abc123" OrderStatus.PICKED_UP exState).1).pickupOrder = none)) :=
  ⟨rfl, pickup_marker_lifecycle "abc123" OrderStatus.PICKED_UP exState rfl⟩

/-- Claim C5: for every response error carrying HTTP status 401, whatever the
prior client state, the interceptor leaves the persisted auth entry absent
from storage, sets the location to the login view, and still propagates the
original error to the caller. -/
theorem response_interceptor_401_clears_session (e : AxiosError) (s : ClientState)
    (h : e.responseStatus = some 401) :
    (storageGetItem "auth" (responseOnError e s).1.storage = none) ∧
    ((responseOnError e s).1.location = "/login") ∧
    ((responseOnError e s).2 = Except.error e) := by
  refine ⟨?_, ?_, rfl⟩
  · show storageGetItem "auth"
      (if e.responseStatus = some 401 then
         { storage := storageRemoveItem "auth" s.storage, location := "/login" }
       else s).storage = none
    rw [if_pos h]
    exact storageGetItem_storageRemoveItem_self _ _
  · show (if e.responseStatus = some 401 then
           { storage := storageRemoveItem "auth" s.storage, location := "/login" }
         else s).location = "/login"
    rw [if_pos h]

/-- A concrete 401 error. -/
def exError401 : AxiosError := ⟨some 401⟩

/-- A concrete client state with a persisted session and one unrelated
storage entry. -/
def exClient : ClientState :=
  { storage := [("auth", "tok"), ("lang", "en")], location := "/orders" }

/-- Witness for claim C5 at a concrete input. -/
theorem response_interceptor_401_witness :
    exError401.responseStatus = some 401 ∧
    ((storageGetItem "auth" (responseOnError exError401 exClient).1.storage = none) ∧
     ((responseOnError exError401 exClient).1.location = "/login") ∧
     ((responseOnError exError401 exClient).2 = Except.error exError401)) :=
  ⟨rfl, response_interceptor_401_clears_session exError401 exClient rfl⟩

/-- Claim C9: the optimistic updater is a pure frame-preserving patch: it
maps an absent cached value to an absent value; on a present value it keeps
the total field and the list length, and entry-wise it replaces exactly the
status field of orders whose id equals the mutated orderId while returning
every other order unchanged; and setQueryData with this updater leaves a
cache without a value at the key entirely unchanged. -/
theorem optimistic_patch_frame (orderId : String) (st : OrderStatus) :
    (ordersUpdater orderId st none = none) ∧
    (∀ old : OrdersResponse, ∃ res : OrdersResponse,
        ordersUpdater orderId st (some old) = some res ∧
        res.total = old.total ∧
        res.orders.length = old.orders.length ∧
        ∀ i : Fin old.orders.length, ∃ hi : i.val < res.orders.length,
          res.orders.get ⟨i.val, hi⟩ =
            (if (old.orders.get i).id = orderId
             then { old.orders.get i with status := st }
             else old.orders.get i)) ∧
    (∀ (k : OrdersKey) (c : OrdersCache), cacheLookup k c = none →
        cacheFnUpdate k (ordersUpdater orderId st) c = c) := by
  refine ⟨rfl, ?_, ?_⟩
  · intro old
    refine ⟨_, rfl, rfl, by simp, ?_⟩
    intro i
    have hi : i.val <
        (old.orders.map fun o =>
          if o.id = orderId then { o with status := st } else o).length := by
      simp [i.isLt]
    refine ⟨hi, ?_⟩
    simp [List.get_eq_getElem, List.getElem_map]
  · intro k c h
    unfold cacheFnUpdate
    rw [h]
    rfl

/-- Witness for claim C9 at a concrete input: the empty cache satisfies the
absent-key hypothesis and is left unchanged by the optimistic setQueryData
call. -/
theorem optimistic_patch_frame_witness :
    cacheLookup exKey ([] : OrdersCache) = none ∧
    cacheFnUpdate exKey (ordersUpdater "abc123" OrderStatus.CANCELLED)
      ([] : OrdersCache) = [] :=
  ⟨by decide,
   (optimistic_patch_frame "abc123" OrderStatus.CANCELLED).2.2 exKey [] (by decide)⟩

/-- Claim C7: every close event of the live-update socket runs an onclose
handler that schedules exactly one reconnect timeout with a fixed 5000 ms
delay and changes nothing else; iterating it over n successive close events
appends exactly n such entries — the delay never grows and no retry cap
exists, for every n. -/
theorem ws_onclose_fixed_delay_reconnect (n : Nat) (s : WsState) :
    closesIter n s = { s with reconnectDelays := s.reconnectDelays ++ List.replicate n 5000 } := by
  induction n generalizing s with
  | zero => simp [closesIter]
  | succ m ih =>
      show closesIter m (wsOnClose s) = _
      rw [ih]
      simp [wsOnClose, List.replicate_succ]

/-- Witness for claim C7 at a concrete input: three successive close events
on the mounted example state schedule exactly three 5000 ms reconnect
timeouts. -/
theorem ws_onclose_fixed_delay_reconnect_witness :
    closesIter 3 exWsState
      = { exWsState with
          reconnectDelays := exWsState.reconnectDelays ++ List.replicate 3 5000 } :=
  ws_onclose_fixed_delay_reconnect 3 exWsState

/-- Claim C6 (refuting theorem): evaluated at the failing input — a mounted
orders view with a token and an open socket — the effect cleanup closes the
socket, but the still-attached onclose handler runs on the resulting close
event and schedules a 5000 ms reconnect timeout; firing that timeout runs
connectWebSocket, which, since the token is still present, opens a fresh
socket.  So a reconnection attempt is both scheduled and performed after
teardown, contradicting the claim. -/
theorem teardown_schedules_reconnect :
    ((teardownCleanup exWsState).socketOpen = false) ∧
    ((wsOnClose (teardownCleanup exWsState)).reconnectDelays = [5000]) ∧
    ((connectWebSocket (wsOnClose (teardownCleanup exWsState))).socketOpen = true) ∧
    ((connectWebSocket (wsOnClose (teardownCleanup exWsState))).socketsOpened
        = exWsState.socketsOpened + 1) := by
  decide

/-- Claim C8: the profile form's phone pattern rejects the input 123 and
accepts the input +12025550123. -/
theorem profile_phone_validation_concrete :
    phoneRegexAccepts "123" = false ∧ phoneRegexAccepts "+12025550123" = true := by
  decide

/-- Modelled from the spec's words for claim C1, to be compared with the
source-derived payment mutation: a payment confirmation performs the same
atomic sequence as a status change — by the time the network request is
dispatched it has cancelled in-flight refetches of the order-list family, it
has already applied the target payment state (PAID) to the matching cached
order, and on settlement — in particular on failure — it invalidates the
order-list cache unconditionally. -/
def paymentConfirmationActsLikeStatusChange : Prop :=
  ∀ (s : PageState) (orderId : String),
    ((paymentMutateStart orderId s).cancelled = true) ∧
    (∀ r, cacheLookup ⟨s.page, s.filter⟩ (paymentMutateStart orderId s).cache = some r →
        ∀ o, o ∈ r.orders → o.id = orderId → o.paymentStatus = PaymentStatus.PAID) ∧
    ((runPaymentMutation orderId false s).invalidations = s.invalidations + 1)

/-- Claim C1 counterexample: the claimed behaviour fails on the code.  At
the concrete state exState — whose cache holds order abc123 with
paymentStatus PENDING — the payment mutation's start phase is the identity
(updatePaymentStatus declares no onMutate), so the cached order still has
paymentStatus PENDING, not PAID, before the network request resolves. -/
theorem payment_confirmation_not_optimistic : ¬ paymentConfirmationActsLikeStatusChange := by
  intro hclaim
  have h2 := (hclaim exState "abc123").2.1
  have h3 := h2 exResp (by decide) exOrder (by decide) (by decide)
  exact absurd h3 (by decide)

/-- Claim C1 as amended: the payment-status mutation does not perform the
status-change sequence.  Its start phase changes no client state (no refetch
cancellation, no snapshot, no optimistic write of the payment state); a
failed payment mutation runs no handler at all (no rollback, no
invalidation); its only effect is invalidating the order-list cache when the
request succeeds, leaving the cached data, the pickup marker and the
cancellation flag untouched. -/
theorem payment_mutation_invalidate_on_success_only (orderId : String) (s : PageState) :
    (paymentMutateStart orderId s = s) ∧
    (runPaymentMutation orderId false s = s) ∧
    ((runPaymentMutation orderId true s).cache = s.cache) ∧
    ((runPaymentMutation orderId true s).pickupOrder = s.pickupOrder) ∧
    ((runPaymentMutation orderId true s).cancelled = s.cancelled) ∧
    ((runPaymentMutation orderId true s).invalidations = s.invalidations + 1) :=
  ⟨rfl, rfl, rfl, rfl, rfl, rfl⟩

end SovyMerchant
